import Mathlib

/-!
Shallow embedding of the `Core` controller of adyen-web
(`src/packages/lib/src/core/core.ts`) and the pieces of its environment
that its observable behaviour depends on.

Modelling conventions:
* JavaScript values that may be `undefined`/`null` are `Option` values;
  `none` plays the role of `undefined`.
* A JavaScript object spread `{ ...old, ...patch }` distinguishes a key
  that is absent from the patch from a key that is present with value
  `undefined` (the latter overwrites).  A patch field is therefore an
  `Option (Option α)`: `none` = key absent, `some v` = key present with
  value `v` (where `v = none` is an explicit `undefined`).
* Callbacks are identified by an abstract id (`Nat`); invoking one is
  recorded as an event in a trace rather than executed.
* External collaborators whose sources are not part of the excerpt
  (environment resolution, `Session.setupSession`, the component
  registry, …) are either parameters of the modelled operation or are
  modelled from the spec, as indicated by their doc comments.
-/

namespace AdyenWeb

/-- A monetary amount, as carried in the configuration and in session
setup responses. -/
structure Amount where
  value : Int
  currency : String
deriving DecidableEq, Repr

/-- An order reference as it appears in the configuration.  Its
`remainingAmount` field is optional in the TypeScript type (the spec
speaks of the case where "`order.remainingAmount` is set"). -/
structure Order where
  orderData : String
  pspReference : String
  remainingAmount : Option Amount
deriving DecidableEq, Repr

/-- The session part of the configuration (identifier plus session
data); its mere presence decides whether a `Session` object is created
at construction time. -/
structure SessionConfig where
  id : String
  sessionData : Option String
deriving DecidableEq, Repr

/-- Abstract identity of a caller-supplied callback function. -/
abbrev CallbackId := Nat

/-- An `AdyenCheckoutError` value: a type tag (for example
`IMPLEMENTATION_ERROR`) and a message. -/
structure AdyenCheckoutError where
  type : String
  message : String
deriving DecidableEq, Repr

/-- The `IMPLEMENTATION_ERROR` constant of `core/Errors/AdyenCheckoutError`. -/
def IMPLEMENTATION_ERROR : String := "IMPLEMENTATION_ERROR"

/-- The ambient `this.options` record of `Core`, restricted to the
fields the modelled operations read or write.  Every field is an
`Option`: `none` is JavaScript `undefined`. -/
structure CoreOptions where
  environment : Option String
  resourceEnvironment : Option String
  clientKey : Option String
  locale : Option String
  countryCode : Option String
  amount : Option Amount
  order : Option Order
  session : Option SessionConfig
  paymentMethodsResponse : Option (List String)
  onError : Option CallbackId
  onAdditionalDetails : Option CallbackId
  onPaymentCompleted : Option CallbackId
  onPaymentFailed : Option CallbackId
  exposeLibraryMetadata : Option Bool
  paymentMethodsConfiguration : Option Bool
deriving DecidableEq, Repr

/-- The options object before any merge: every key undefined. -/
def emptyOptions : CoreOptions where
  environment := none
  resourceEnvironment := none
  clientKey := none
  locale := none
  countryCode := none
  amount := none
  order := none
  session := none
  paymentMethodsResponse := none
  onError := none
  onAdditionalDetails := none
  onPaymentCompleted := none
  onPaymentFailed := none
  exposeLibraryMetadata := none
  paymentMethodsConfiguration := none

/-- A configuration object handed to `setOptions` (or to the `Core`
constructor / `update`).  Each field is `Option (Option α)`: the outer
layer records whether the key is an own property of the object, the
inner layer is its (possibly `undefined`) value. -/
structure ConfigPatch where
  environment : Option (Option String)
  resourceEnvironment : Option (Option String)
  clientKey : Option (Option String)
  locale : Option (Option String)
  countryCode : Option (Option String)
  amount : Option (Option Amount)
  order : Option (Option Order)
  session : Option (Option SessionConfig)
  paymentMethodsResponse : Option (Option (List String))
  onError : Option (Option CallbackId)
  onAdditionalDetails : Option (Option CallbackId)
  onPaymentCompleted : Option (Option CallbackId)
  onPaymentFailed : Option (Option CallbackId)
  exposeLibraryMetadata : Option (Option Bool)
  paymentMethodsConfiguration : Option (Option Bool)
deriving DecidableEq, Repr

/-- The patch `{}`: no own properties. -/
def emptyPatch : ConfigPatch where
  environment := none
  resourceEnvironment := none
  clientKey := none
  locale := none
  countryCode := none
  amount := none
  order := none
  session := none
  paymentMethodsResponse := none
  onError := none
  onAdditionalDetails := none
  onPaymentCompleted := none
  onPaymentFailed := none
  exposeLibraryMetadata := none
  paymentMethodsConfiguration := none

/-- Reading a property off a patch object (`options?.f`): an absent key
reads as `undefined`. -/
def readProp : Option (Option α) → Option α
  | none => none
  | some v => v

/-- One field of the object spread `{ ...old, ...patch }`: a key that is
an own property of the patch overwrites (even with `undefined`), an
absent key leaves the old value. -/
def mergeField (old : Option α) (patch : Option (Option α)) : Option α :=
  match patch with
  | none => old
  | some v => v

/-- JavaScript truthiness of a possibly-undefined string: `undefined`,
`null` and the empty string are falsy. -/
def truthyStr : Option String → Bool
  | some s => s ≠ ""
  | none => false

/-- JavaScript truthiness of a possibly-undefined boolean. -/
def truthyBool : Option Bool → Bool
  | some b => b
  | none => false

/-- JavaScript `a || b` on possibly-undefined strings. -/
def jsOrStr (a b : Option String) : Option String :=
  if truthyStr a then a else b

/-- Whether `needle` occurs as a substring of `haystack`
(JavaScript `String.prototype.includes`). -/
def strIncludes (haystack needle : String) : Bool :=
  haystack.toList.tails.any fun t => needle.toList.isPrefixOf t

/-- Model of `Core.setOptions` (core.ts lines 258-264): the new options are
`{ ...this.options, ...options, locale: options?.locale || this.options?.locale }`
— a shallow merge of the patch over the old options, except that the
`locale` key is always (re)written with `patch.locale || old.locale`. -/
def setOptions (old : CoreOptions) (patch : ConfigPatch) : CoreOptions where
  environment := mergeField old.environment patch.environment
  resourceEnvironment := mergeField old.resourceEnvironment patch.resourceEnvironment
  clientKey := mergeField old.clientKey patch.clientKey
  locale := jsOrStr (readProp patch.locale) old.locale
  countryCode := mergeField old.countryCode patch.countryCode
  amount := mergeField old.amount patch.amount
  order := mergeField old.order patch.order
  session := mergeField old.session patch.session
  paymentMethodsResponse := mergeField old.paymentMethodsResponse patch.paymentMethodsResponse
  onError := mergeField old.onError patch.onError
  onAdditionalDetails := mergeField old.onAdditionalDetails patch.onAdditionalDetails
  onPaymentCompleted := mergeField old.onPaymentCompleted patch.onPaymentCompleted
  onPaymentFailed := mergeField old.onPaymentFailed patch.onPaymentFailed
  exposeLibraryMetadata := mergeField old.exposeLibraryMetadata patch.exposeLibraryMetadata
  paymentMethodsConfiguration := mergeField old.paymentMethodsConfiguration patch.paymentMethodsConfiguration

/-- The observable side effects of the modelled `Core` operations,
recorded as a trace. -/
inductive CoreEvent where
  /-- the static metadata record was published onto
  `window['AdyenWebMetadata']` -/
  | metadataPublished
  /-- event: `session.setupSession` was started (a network exchange) -/
  | sessionSetupStarted
  /-- the configured `onError` callback was invoked with an error -/
  | onErrorCalled (e : AdyenCheckoutError)
  /-- the `onAdditionalDetails` callback was invoked, handed the
  resolve/reject of a freshly constructed promise -/
  | onAdditionalDetailsInvoked
  /-- event: `session.submitDetails(details)` was called -/
  | sessionSubmitDetailsCalled
  /-- event: `console.warn` about the unsupported `paymentMethodsConfiguration`
  option -/
  | warnedPaymentMethodsConfiguration
  /-- event: `console.warn('Core: Core modules are already created.')` -/
  | warnedModulesAlreadyCreated
  /-- an analytics event was sent for a component key handled by an
  action -/
  | analyticsSent (component : Option String) (subtype : Option String)
deriving DecidableEq, Repr

/-- The four-plus long-lived modules created by `createCoreModules`
(risk, analytics, resources, i18n, srPanel).  The `creationId` is a
fresh identity drawn at creation time, so that value equality of two
`CoreModules` coincides with object identity; the remaining fields
snapshot the configuration the modules were built from. -/
structure CoreModules where
  creationId : Nat
  clientKey : Option String
  locale : Option String
  cdnContext : String
deriving DecidableEq, Repr

/-- The mutable state of one `Core` instance that the modelled
operations touch. -/
structure CoreState where
  options : CoreOptions
  loadingContext : String
  cdnContext : String
  analyticsContext : String
  /-- field `this.session`, created at construction iff a session is
  configured; it is identified with its configuration -/
  session : Option SessionConfig
  /-- the raw payment-methods list the `PaymentMethods` catalogue was
  built from (`this.paymentMethodsResponse`), `none` before the first
  `initialize` -/
  paymentMethodsResponse : Option (List String)
  /-- field `this.modules`, `none` until `createCoreModules` ran -/
  modules : Option CoreModules
  /-- a supply of fresh identities for module creation -/
  freshId : Nat
  /-- whether `process.env.NODE_ENV === 'development'` -/
  devMode : Bool
deriving DecidableEq, Repr

/-- The outcome of the deterministic, side-effect-free environment
resolution (`resolveEnvironment`, `resolveCDNEnvironment`,
`resolveAnalyticsEnvironment` live in `core/Environment`, outside the
excerpt); the constructor is parameterized by its result. -/
structure EnvResolution where
  loadingContext : String
  cdnContext : String
  analyticsContext : String
deriving DecidableEq, Repr

/-- The object `{ exposeLibraryMetadata: true, ...props }` built on
core.ts line 66: `exposeLibraryMetadata` becomes an own property whose
value is the caller's when the caller set one (even explicitly
undefined or false) and `true` otherwise. -/
def constructorPatch (props : ConfigPatch) : ConfigPatch :=
  { props with
    exposeLibraryMetadata :=
      match props.exposeLibraryMetadata with
      | some v => some v
      | none => some (some true) }

/-- The options record right after the constructor's `setOptions` call
(the previous options being empty at construction time). -/
def constructorOptions (props : ConfigPatch) : CoreOptions :=
  setOptions emptyOptions (constructorPatch props)

/-- The state a successful `Core` constructor run leaves behind
(core.ts lines 63-84): the merged options (with the
`exposeLibraryMetadata: true` default), the three resolved environment
contexts, and a `Session` object iff a session is configured (creating
it involves no network activity). -/
def constructorState (props : ConfigPatch) (env : EnvResolution) (devMode : Bool) : CoreState where
  options := constructorOptions props
  loadingContext := env.loadingContext
  cdnContext := env.cdnContext
  analyticsContext := env.analyticsContext
  session := (constructorOptions props).session
  paymentMethodsResponse := none
  modules := none
  freshId := 0
  devMode := devMode

/-- The thrown mismatched-mode error (core.ts lines 75-78). -/
def modeMismatchError (t : String) (environment : Option String) : AdyenCheckoutError :=
  ⟨IMPLEMENTATION_ERROR,
    "Error: you are using a " ++ t ++ " clientKey against the " ++
      (environment.getD "undefined") ++ " environment"⟩

/-- The `Core` constructor (core.ts lines 63-84).  It
1. merges `{ exposeLibraryMetadata: true, ...props }` into the (empty)
   options (`constructorOptions`),
2. dispatches on the client key's 4-character prefix
   (`clientKey?.substr(0, 4)`): it throws an `IMPLEMENTATION_ERROR` if
   that prefix is `test` or `live` while the loading context does not
   contain that string,
3. otherwise, publishes the static metadata record on the window when
   `exposeLibraryMetadata` is truthy.
The result is the event trace together with either the thrown error or
the constructed state. -/
def coreConstructor (props : ConfigPatch) (env : EnvResolution) (devMode : Bool) :
    List CoreEvent × Except AdyenCheckoutError CoreState :=
  match (constructorOptions props).clientKey.map (fun k => k.take 4) with
  | some t =>
    if (t = "test" ∨ t = "live") ∧ ¬ strIncludes env.loadingContext t then
      ([], Except.error (modeMismatchError t (constructorOptions props).environment))
    else if truthyBool (constructorOptions props).exposeLibraryMetadata then
      ([CoreEvent.metadataPublished], Except.ok (constructorState props env devMode))
    else
      ([], Except.ok (constructorState props env devMode))
  | none =>
    if truthyBool (constructorOptions props).exposeLibraryMetadata then
      ([CoreEvent.metadataPublished], Except.ok (constructorState props env devMode))
    else
      ([], Except.ok (constructorState props env devMode))

/-- Modelled from the spec: the fixed fallback locale constant
`DEFAULT_LOCALE` of `language/config` (not part of the excerpt); the
spec only states that `locale` "defaults to a fixed fallback constant
if unset". -/
def DEFAULT_LOCALE : String := "en-US"

/-- The response of a successful `session.setupSession` exchange
(`CheckoutSession` is outside the excerpt; per the spec it returns "at
least `amount`, `shopperLocale`, `countryCode`, `paymentMethods`", plus
additional fields that are merged transparently and are not needed by
the verified claims). -/
structure SessionSetupResponse where
  amount : Option Amount
  shopperLocale : Option String
  countryCode : Option String
  paymentMethods : List String
deriving DecidableEq, Repr

/-- The session-success branch of `initializeCore` (core.ts lines
97-109): the session-returned fields are folded into the options — the
patch sets `amount` to `order.remainingAmount` when an order is truthy
and to the session amount otherwise, `locale` to
`options.locale || shopperLocale` and `countryCode` to
`options.countryCode || countryCode` (all three own properties of the
patch) — and the payment-methods list is built from
`options.paymentMethodsResponse || paymentMethods`. -/
def foldSessionResponse (st : CoreState) (resp : SessionSetupResponse) : CoreState :=
  let patch : ConfigPatch :=
    { emptyPatch with
      amount := some
        (match st.options.order with
         | some o => o.remainingAmount
         | none => resp.amount)
      locale := some (jsOrStr st.options.locale resp.shopperLocale)
      countryCode := some (jsOrStr st.options.countryCode resp.countryCode) }
  let options := setOptions st.options patch
  let pmr : Option (List String) :=
    match options.paymentMethodsResponse with
    | some l => some l
    | none => some resp.paymentMethods
  { st with options := options, paymentMethodsResponse := pmr }

/-- Model of `Core.initializeCore` (core.ts lines 93-119), parameterized by the
outcome of the external `session.setupSession` network exchange (used
only when a session is configured).  With a session: on success the
response is folded into the state (`foldSessionResponse`); on failure
`onError` is invoked when configured and the error is re-thrown.
Without a session the payment-methods list is built from the configured
`paymentMethodsResponse` alone. -/
def initializeCore (st : CoreState)
    (setup : Except AdyenCheckoutError SessionSetupResponse) :
    List CoreEvent × Except AdyenCheckoutError CoreState :=
  match st.session with
  | some _ =>
    match setup with
    | Except.ok resp =>
      ([CoreEvent.sessionSetupStarted], Except.ok (foldSessionResponse st resp))
    | Except.error e =>
      ([CoreEvent.sessionSetupStarted] ++
        (match st.options.onError with
         | some _ => [CoreEvent.onErrorCalled e]
         | none => []),
        Except.error e)
  | none =>
    let pmr : Option (List String) :=
      match st.options.paymentMethodsResponse with
      | some l => some l
      | none => none
    ([], Except.ok { st with paymentMethodsResponse := pmr })

/-- The `IMPLEMENTATION_ERROR` thrown by `validateCoreConfiguration`
when `countryCode` is missing (core.ts lines 131-136). -/
def countryCodeError : AdyenCheckoutError :=
  ⟨IMPLEMENTATION_ERROR,
    "You must specify a countryCode when initializing checkout. " ++
      "(If you are using a session then this session should be initialized with a countryCode.)"⟩

/-- Model of `Core.validateCoreConfiguration` (core.ts lines 121-137): warn if
the legacy `paymentMethodsConfiguration` option is present, default the
locale to `DEFAULT_LOCALE` when falsy, then throw an
`IMPLEMENTATION_ERROR` if `countryCode` is falsy. -/
def validateCoreConfiguration (st : CoreState) :
    List CoreEvent × Except AdyenCheckoutError CoreState :=
  let warnEvents :=
    match st.options.paymentMethodsConfiguration with
    | some _ => [CoreEvent.warnedPaymentMethodsConfiguration]
    | none => []
  let st1 :=
    if truthyStr st.options.locale then st
    else
      { st with
        options := setOptions st.options
          { emptyPatch with locale := some (some DEFAULT_LOCALE) } }
  if truthyStr st1.options.countryCode then
    (warnEvents, Except.ok st1)
  else
    (warnEvents, Except.error countryCodeError)

/-- Model of `Core.createCoreModules` (core.ts lines 309-332): if the modules
already exist the call is a no-op that only logs a warning (and only in
a development build); otherwise the five modules are created exactly
once, from the current configuration, with a fresh identity. -/
def createCoreModules (st : CoreState) : List CoreEvent × CoreState :=
  match st.modules with
  | some _ =>
    ((if st.devMode then [CoreEvent.warnedModulesAlreadyCreated] else []), st)
  | none =>
    ([],
      { st with
        modules := some
          { creationId := st.freshId
            clientKey := st.options.clientKey
            locale := st.options.locale
            cdnContext := st.cdnContext }
        freshId := st.freshId + 1 })

/-- Model of `Core.initialize` (core.ts lines 86-91): `initializeCore`, then
`validateCoreConfiguration`, then `createCoreModules`, short-circuiting
on the first error.  The traces of the stages are concatenated.  (The
source method is called `initialize`; that word is reserved in Lean, so
the definition carries a longer name.) -/
def initializeCheckout (st : CoreState)
    (setup : Except AdyenCheckoutError SessionSetupResponse) :
    List CoreEvent × Except AdyenCheckoutError CoreState :=
  match initializeCore st setup with
  | (ev1, Except.error e) => (ev1, Except.error e)
  | (ev1, Except.ok st1) =>
    match validateCoreConfiguration st1 with
    | (ev2, Except.error e) => (ev1 ++ ev2, Except.error e)
    | (ev2, Except.ok st2) =>
      let (ev3, st3) := createCoreModules st2
      (ev1 ++ ev2 ++ ev3, Except.ok st3)

/-- Which promise ends up driving the post-processing pipeline
(`sanitize → verify-payment-did-not-fail → cleanup →
onPaymentCompleted/onPaymentFailed`) at the end of `submitDetails`. -/
inductive SubmitPathway where
  /-- the promise whose resolve/reject were handed to the
  `onAdditionalDetails` callback -/
  | additionalDetails
  /-- the promise returned by `session.submitDetails(details)` -/
  | sessionFlow
deriving DecidableEq, Repr

/-- The `IMPLEMENTATION_ERROR` surfaced by `submitDetails` when neither
submission pathway is available (core.ts lines 163-168). -/
def cannotSubmitDetailsError : AdyenCheckoutError :=
  ⟨IMPLEMENTATION_ERROR,
    "It can not submit the details. The callback \x22onAdditionalDetails\x22 or the Session is not setup correctly."⟩

/-- Model of `Core.submitDetails` (core.ts lines 146-183).  A `promise` variable
starts out `null`; if `onAdditionalDetails` is configured the callback
is invoked with the resolve/reject of a fresh promise which is stored
in `promise`; then, if a session is active, `session.submitDetails` is
called and its promise overwrites `promise`.  If `promise` is still
`null`, `onError` (when configured) receives an `IMPLEMENTATION_ERROR`
and the method returns.  Otherwise the surviving promise is the one
post-processed.  The result is the trace of synchronous effects
together with the pathway attached to post-processing (`none` = early
return, nothing attached). -/
def submitDetails (st : CoreState) : List CoreEvent × Option SubmitPathway :=
  let (ev1, promise1) :=
    match st.options.onAdditionalDetails with
    | some _ => ([CoreEvent.onAdditionalDetailsInvoked], some SubmitPathway.additionalDetails)
    | none => (([] : List CoreEvent), none)
  let (ev2, promise2) :=
    match st.session with
    | some _ => ([CoreEvent.sessionSubmitDetailsCalled], some SubmitPathway.sessionFlow)
    | none => (([] : List CoreEvent), promise1)
  match promise2 with
  | none =>
    (ev1 ++ ev2 ++
      (match st.options.onError with
       | some _ => [CoreEvent.onErrorCalled cannotSubmitDetailsError]
       | none => []),
      none)
  | some p => (ev1 ++ ev2, some p)

/-- An action payload as passed to `createFromAction`: the fields the
dispatcher reads, plus whether the object has own `action` /
`resultCode` properties (interrogated by the whole-response
diagnostic). -/
structure PaymentAction where
  type : Option String
  subtype : Option String
  paymentMethodType : Option String
  /-- whether the object has an own `action` property -/
  hasActionProp : Bool
  /-- whether the object has an own `resultCode` property -/
  hasResultCodeProp : Bool
deriving DecidableEq, Repr

/-- A plain JavaScript `Error`, identified with its message. -/
structure JsError where
  message : String
deriving DecidableEq, Repr

/-- Modelled from the spec: the `THREEDS2_FULL` constant of
`components/ThreeDS2/config` (outside the excerpt) — the tag of "the
one action type that has sub-variants", whose component key is the
concatenation type+subtype. -/
def THREEDS2_FULL : String := "threeDS2"

/-- Modelled from the spec: the component registry (`core.registry`,
outside the excerpt) — a mapping from txVariant string to a component
constructor capability (identified here by a `Nat`); the most recent
registration for a key wins, and lookup of an unknown key signals
not-found recoverably. -/
structure Registry where
  entries : List (String × Nat)
deriving DecidableEq, Repr

/-- Register a constructor under a txVariant; a later registration for
the same key overrides an earlier one. -/
def Registry.registerComponent (r : Registry) (txVariant : String) (ctor : Nat) : Registry :=
  ⟨(txVariant, ctor) :: r.entries⟩

/-- Look a txVariant up; `none` is the recoverable not-found signal. -/
def Registry.getComponent (r : Registry) (txVariant : String) : Option Nat :=
  r.entries.lookup txVariant

/-- A constructed UI element: the constructor it was built from and the
txVariant key it was resolved under.  (The merged props handed to the
constructor are not tracked; no verified claim inspects them.) -/
structure UIElementInst where
  ctor : Nat
  txVariant : String
deriving DecidableEq, Repr

/-- The computed component key of an action (core.ts line 205):
`` action.type === THREEDS2_FULL ? `${action.type}${action.subtype}` :
action.paymentMethodType `` — a template literal renders an undefined
subtype as the string `undefined`. -/
def componentKeyFor (a : PaymentAction) : Option String :=
  if a.type = some THREEDS2_FULL then
    some (THREEDS2_FULL ++ (a.subtype.getD "undefined"))
  else
    a.paymentMethodType

/-- Rendering of a possibly-undefined string inside an abstract
`JSON.stringify` image. -/
def stringifyOptStr : Option String → String
  | some s => "\x22" ++ s ++ "\x22"
  | none => "undefined"

/-- Abstract `JSON.stringify` of an action payload: a rendering that
contains the values of the action's own fields. -/
def stringifyAction (a : PaymentAction) : String :=
  "\x7b type: " ++ stringifyOptStr a.type ++ ", subtype: " ++ stringifyOptStr a.subtype ++
    ", paymentMethodType: " ++ stringifyOptStr a.paymentMethodType ++ " \x7d"

/-- What `handleCreateError` is handed: the offending payment-method
key (its `name`) together with the `JSON.stringify` image of the raw
value that was passed. -/
structure PaymentMethodDescriptor where
  name : Option String
  stringified : String
deriving DecidableEq, Repr

/-- Model of `Core.handleCreateError` (core.ts lines 294-303): builds the thrown
error; with a payment-method descriptor the message names the payment
method (falling back to "The passed payment method") and embeds the
stringified raw value; without one it is the generic
no-component-passed message. -/
def handleCreateError (paymentMethod : Option PaymentMethodDescriptor) : JsError :=
  match paymentMethod with
  | some pm =>
    let paymentMethodName := pm.name.getD "The passed payment method"
    ⟨paymentMethodName ++ " is not a valid Checkout Component. What was passed as a txVariant was: " ++
      pm.stringified ++
      ". Check if this payment method is configured in the Backoffice or if the txVariant is a valid one"⟩
  | none => ⟨"No Payment Method component was passed"⟩

/-- Modelled from the spec: `getComponentForAction`
(`core/ProcessResponse/PaymentAction`, outside the excerpt) — the
dispatcher resolves the computed component key through the registry and
constructs a new UI element; an unknown (or undefined) key must surface
as a thrown error naming the offending payment method and the raw value
passed, never a null element.  The error is built with the source's
`handleCreateError`. -/
def getComponentForAction (reg : Registry) (a : PaymentAction) : Except JsError UIElementInst :=
  match componentKeyFor a with
  | some key =>
    match reg.getComponent key with
    | some c => Except.ok ⟨c, key⟩
    | none => Except.error (handleCreateError (some ⟨some key, stringifyAction a⟩))
  | none => Except.error (handleCreateError (some ⟨none, stringifyAction a⟩))

/-- The "whole response" diagnostic of `createFromAction` (core.ts
lines 195-198). -/
def wholeResponseError : JsError :=
  ⟨"createFromAction::Invalid Action - the passed action object itself has an \x22action\x22 property and a \x22resultCode\x22: have you passed in the whole response object by mistake?"⟩

/-- The generic missing-type diagnostic of `createFromAction` (core.ts
line 200). -/
def missingTypeError : JsError :=
  ⟨"createFromAction::Invalid Action - the passed action object does not have a \x22type\x22 property"⟩

/-- Model of `Core.createFromAction` (core.ts lines 192-222), with the
`hasOwnProperty` utility (outside the excerpt) behaving as a guarded
own-property check that is false on a null object.  If the action is
absent or its `type` is falsy: throw the whole-response diagnostic when
the object has both an own `action` and an own `resultCode` property,
the generic missing-type error otherwise.  With a truthy `type`:
compute the component key, send one analytics event for it, and
dispatch through `getComponentForAction`. -/
def createFromAction (reg : Registry) (action : Option PaymentAction) :
    List CoreEvent × Except JsError UIElementInst :=
  match action with
  | none => ([], Except.error missingTypeError)
  | some a =>
    if truthyStr a.type then
      let component := componentKeyFor a
      ([CoreEvent.analyticsSent component a.type], getComponentForAction reg a)
    else if a.hasActionProp && a.hasResultCodeProp then
      ([], Except.error wholeResponseError)
    else
      ([], Except.error missingTypeError)

/-- A concrete session configuration, used to build example states. -/
def testSession : SessionConfig :=
  ⟨"CS616O6CD7E4YA59", some "Ab02b4c0"⟩

/-- Build a concrete `CoreState` with the given options and session,
with fixed environment contexts, as the constructor would leave it
(development build). -/
def mkState (opts : CoreOptions) (sess : Option SessionConfig) : CoreState where
  options := opts
  loadingContext := "https://checkoutshopper-test.adyen.com/checkoutshopper/"
  cdnContext := "https://cdf6519016.cdn.adyen.com/checkoutshopper/"
  analyticsContext := "https://checkoutanalytics-test.adyen.com/checkoutanalytics/"
  session := sess
  paymentMethodsResponse := none
  modules := none
  freshId := 0
  devMode := true

/-! Shared helper lemmas. -/

/-- Merging a field into an empty (undefined) base just reads the patch
property. -/
theorem mergeField_none (p : Option (Option α)) : mergeField (none : Option α) p = readProp p := by
  cases p <;> rfl

/-- A substring occurrence witnessed by a decomposition of the
haystack's character list. -/
theorem strIncludes_of_decomp (h n : String) (pre post : List Char)
    (hh : h.toList = pre ++ (n.toList ++ post)) : strIncludes h n = true := by
  unfold strIncludes
  rw [List.any_eq_true]
  refine ⟨n.toList ++ post, ?_, ?_⟩
  · rw [List.mem_tails, hh]
    exact List.suffix_append _ _
  · rw [ List.isPrefixOf_iff_prefix]
    exact List.prefix_append _ _

/-! Claim theorems. -/

/-- C9: the configuration merge of `setOptions` is a shallow merge of
the incoming options over the existing ones — every field other than
`locale` is the patch's own-property value when the key is present and
the prior value otherwise — except that the prior locale is preserved
whenever the incoming locale value is falsy (key absent, or present as
undefined/null/empty), and a truthy incoming locale wins. -/
theorem c9_setOptions_shallow_merge_locale (old : CoreOptions) (patch : ConfigPatch) :
    ((readProp patch.locale = none ∨ readProp patch.locale = some "") →
      (setOptions old patch).locale = old.locale) ∧
    (∀ s : String, s ≠ "" → readProp patch.locale = some s →
      (setOptions old patch).locale = some s) ∧
    (setOptions old patch).environment = mergeField old.environment patch.environment ∧
    (setOptions old patch).resourceEnvironment = mergeField old.resourceEnvironment patch.resourceEnvironment ∧
    (setOptions old patch).clientKey = mergeField old.clientKey patch.clientKey ∧
    (setOptions old patch).countryCode = mergeField old.countryCode patch.countryCode ∧
    (setOptions old patch).amount = mergeField old.amount patch.amount ∧
    (setOptions old patch).order = mergeField old.order patch.order ∧
    (setOptions old patch).session = mergeField old.session patch.session ∧
    (setOptions old patch).paymentMethodsResponse = mergeField old.paymentMethodsResponse patch.paymentMethodsResponse ∧
    (setOptions old patch).onError = mergeField old.onError patch.onError ∧
    (setOptions old patch).onAdditionalDetails = mergeField old.onAdditionalDetails patch.onAdditionalDetails ∧
    (setOptions old patch).onPaymentCompleted = mergeField old.onPaymentCompleted patch.onPaymentCompleted ∧
    (setOptions old patch).onPaymentFailed = mergeField old.onPaymentFailed patch.onPaymentFailed ∧
    (setOptions old patch).exposeLibraryMetadata = mergeField old.exposeLibraryMetadata patch.exposeLibraryMetadata ∧
    (setOptions old patch).paymentMethodsConfiguration = mergeField old.paymentMethodsConfiguration patch.paymentMethodsConfiguration := by
  refine ⟨?_, ?_, rfl, rfl, rfl, rfl, rfl, rfl, rfl, rfl, rfl, rfl, rfl, rfl, rfl, rfl⟩
  · rintro (hl | hl) <;> simp [setOptions, jsOrStr, truthyStr, hl]
  · intro s hs hl
    simp [setOptions, jsOrStr, truthyStr, hl, hs]

/-- C9 witness: a falsy incoming locale (explicit undefined) preserves
the prior locale while a sibling key is overwritten, and a truthy
incoming locale wins. -/
theorem c9_witness :
    (setOptions { emptyOptions with locale := some "nl-NL" }
        { emptyPatch with locale := some none, countryCode := some (some "BE") }).locale = some "nl-NL" ∧
    (setOptions { emptyOptions with locale := some "nl-NL" }
        { emptyPatch with locale := some (some "fr-FR") }).locale = some "fr-FR" :=
  ⟨(c9_setOptions_shallow_merge_locale _ _).1 (Or.inl rfl),
    (c9_setOptions_shallow_merge_locale _ _).2.1 "fr-FR" (by decide) rfl⟩

/-- C5: when the configuration has neither an `onAdditionalDetails`
callback nor an active session (and an `onError` callback is
configured), `submitDetails` invokes `onError` exactly once, with an
`IMPLEMENTATION_ERROR`, performs no other callback or effect, attaches
no post-processing pathway (so neither `onPaymentCompleted` nor
`onPaymentFailed` can fire), and returns rather than throwing. -/
theorem c5_submitDetails_onError_once (st : CoreState) (cb : CallbackId)
    (hAD : st.options.onAdditionalDetails = none)
    (hS : st.session = none)
    (hE : st.options.onError = some cb) :
    submitDetails st = ([CoreEvent.onErrorCalled cannotSubmitDetailsError], none) ∧
    cannotSubmitDetailsError.type = IMPLEMENTATION_ERROR := by
  refine ⟨?_, rfl⟩
  simp [submitDetails, hAD, hS, hE]

/-- C5 witness: the theorem applied to a concrete configuration with
only an `onError` callback. -/
theorem c5_witness :
    submitDetails (mkState { emptyOptions with onError := some 3 } none) =
      ([CoreEvent.onErrorCalled cannotSubmitDetailsError], none) :=
  (c5_submitDetails_onError_once (mkState { emptyOptions with onError := some 3 } none) 3
    rfl rfl rfl).1

/-- C1 counterexample: with both an `onAdditionalDetails` callback and
an active session configured, `submitDetails` runs BOTH pathways — the
callback is handed the resolve/reject of a fresh promise AND
`session.submitDetails` is called — and it is the session promise, not
the `onAdditionalDetails` one, that is post-processed.  This refutes
the claim that exactly one pathway runs with `onAdditionalDetails`
taking fixed priority. -/
theorem c1_counterexample :
    submitDetails (mkState
        { emptyOptions with onAdditionalDetails := some 7, session := some testSession }
        (some testSession)) =
      ([CoreEvent.onAdditionalDetailsInvoked, CoreEvent.sessionSubmitDetailsCalled],
        some SubmitPathway.sessionFlow) ∧
    (mkState { emptyOptions with onAdditionalDetails := some 7, session := some testSession }
        (some testSession)).options.onAdditionalDetails = some 7 ∧
    some SubmitPathway.sessionFlow ≠ some SubmitPathway.additionalDetails := by
  refine ⟨rfl, rfl, by decide⟩

/-- C1 (amended): in `submitDetails`, if an `onAdditionalDetails`
callback is configured a promise is constructed whose resolve/reject
are handed to that callback; if a session is active,
`session.submitDetails(details)` is additionally called and the session
promise replaces the `onAdditionalDetails` promise as the one that is
post-processed (the session pathway takes fixed priority for
post-processing); the `onAdditionalDetails` promise drives completion
exactly when the callback is configured and no session is active. -/
theorem c1_submitDetails_pathway_priority (st : CoreState) :
    (submitDetails st).2 =
      (if st.session.isSome then some SubmitPathway.sessionFlow
       else if st.options.onAdditionalDetails.isSome then some SubmitPathway.additionalDetails
       else none) ∧
    (CoreEvent.onAdditionalDetailsInvoked ∈ (submitDetails st).1 ↔
      st.options.onAdditionalDetails.isSome = true) ∧
    (CoreEvent.sessionSubmitDetailsCalled ∈ (submitDetails st).1 ↔
      st.session.isSome = true) := by
  rcases hAD : st.options.onAdditionalDetails with _ | a <;>
    rcases hS : st.session with _ | s <;>
    rcases hE : st.options.onError with _ | e <;>
    simp [submitDetails, hAD, hS, hE]

/-- C8: when session setup fails during a session-backed initialize,
the failure is forwarded to the configured `onError` callback and the
initialize operation itself rejects with that same error. -/
theorem c8_session_setup_failure (st : CoreState) (sc : SessionConfig)
    (e : AdyenCheckoutError) (hs : st.session = some sc) :
    (initializeCheckout st (Except.error e)).2 = Except.error e ∧
    (st.options.onError.isSome = true →
      CoreEvent.onErrorCalled e ∈ (initializeCheckout st (Except.error e)).1) := by
  rcases hE : st.options.onError with _ | cb <;>
    simp [initializeCheckout, initializeCore, hs, hE]

/-- C8 witness: the theorem applied to a concrete session-backed
configuration with an `onError` callback and a failing setup. -/
theorem c8_witness :
    (initializeCheckout
        (mkState { emptyOptions with onError := some 5, session := some testSession }
          (some testSession))
        (Except.error ⟨"NETWORK_ERROR", "Session setup failed"⟩)).2 =
      Except.error ⟨"NETWORK_ERROR", "Session setup failed"⟩ ∧
    CoreEvent.onErrorCalled ⟨"NETWORK_ERROR", "Session setup failed"⟩ ∈
      (initializeCheckout
        (mkState { emptyOptions with onError := some 5, session := some testSession }
          (some testSession))
        (Except.error ⟨"NETWORK_ERROR", "Session setup failed"⟩)).1 :=
  ⟨(c8_session_setup_failure _ testSession _ rfl).1,
    (c8_session_setup_failure _ testSession _ rfl).2 rfl⟩

/-- A concrete session-backed state whose configuration carries an
order WITHOUT a remaining amount (the `remainingAmount` key of an order
is optional). -/
def c4State : CoreState :=
  mkState
    { emptyOptions with
      session := some testSession
      countryCode := some "NL"
      order := some ⟨"CAfE=", "PSP123456789", none⟩ }
    (some testSession)

/-- A concrete successful session-setup response carrying a raw session
amount. -/
def c4Response : SessionSetupResponse :=
  ⟨some ⟨1000, "EUR"⟩, some "nl-NL", some "NL", ["ideal", "scheme"]⟩

/-- C4 counterexample: the code decides on the mere presence of an
order, not on the presence of a remaining amount.  With an order that
has no `remainingAmount`, no "order with a remaining-amount" is present
— so the claim predicts the effective amount equals the session's raw
amount — yet after a successful session setup the effective amount is
unset (`order.remainingAmount`, i.e. undefined), not the session
amount. -/
theorem c4_counterexample :
    (initializeCore c4State (Except.ok c4Response)).2.toOption.map
        (fun st' => st'.options.amount) = some none ∧
    c4State.options.order = some ⟨"CAfE=", "PSP123456789", none⟩ ∧
    c4Response.amount = some ⟨1000, "EUR"⟩ ∧
    (none : Option Amount) ≠ c4Response.amount := by
  refine ⟨rfl, rfl, rfl, by decide⟩

/-- C4 (amended): in a session-backed initialize, after session setup
succeeds the effective amount in the configuration equals
`order.remainingAmount` whenever an order is present in the
configuration — even when that order carries no remaining amount, in
which case the effective amount becomes unset — and equals the
session-returned amount only when no order is present. -/
theorem c4_effective_amount (st : CoreState) (sc : SessionConfig)
    (resp : SessionSetupResponse) (hs : st.session = some sc) :
    (initializeCore st (Except.ok resp)).2.toOption.map (fun st' => st'.options.amount) =
      some (match st.options.order with
            | some o => o.remainingAmount
            | none => resp.amount) := by
  rcases ho : st.options.order with _ | o <;>
    simp [initializeCore, foldSessionResponse, hs, ho, setOptions, mergeField, emptyPatch,
      Except.toOption]

/-- C4 witness: the amended theorem applied to a concrete order-less
session state, where the session's raw amount becomes effective. -/
theorem c4_witness :
    (initializeCore
        (mkState { emptyOptions with session := some testSession, countryCode := some "NL" }
          (some testSession))
        (Except.ok c4Response)).2.toOption.map (fun st' => st'.options.amount) =
      some (some ⟨1000, "EUR"⟩) :=
  c4_effective_amount _ testSession c4Response rfl

/-- Validation rejects exactly when `countryCode` is falsy: the
locale-defaulting step never touches `countryCode`. -/
theorem validateCoreConfiguration_noCountryCode (st : CoreState)
    (hcc : truthyStr st.options.countryCode = false) :
    (validateCoreConfiguration st).2 = Except.error countryCodeError := by
  unfold validateCoreConfiguration
  by_cases hl : truthyStr st.options.locale
  · simp [hl, hcc]
  · simp [hl, setOptions, mergeField, emptyPatch, hcc]

/-- With a truthy `countryCode`, validation succeeds and preserves
`countryCode`, the modules, the dev-mode flag and the session, emitting
at most a compatibility warning. -/
theorem validateCoreConfiguration_ok (st : CoreState)
    (hcc : truthyStr st.options.countryCode = true) :
    ∃ ev st', validateCoreConfiguration st = (ev, Except.ok st') ∧
      st'.options.countryCode = st.options.countryCode ∧
      st'.modules = st.modules ∧
      st'.devMode = st.devMode ∧
      st'.session = st.session ∧
      (∀ e, CoreEvent.onErrorCalled e ∉ ev) := by
  unfold validateCoreConfiguration
  rcases hp : st.options.paymentMethodsConfiguration with _ | b <;>
    by_cases hl : truthyStr st.options.locale <;>
    simp [hp, hl, setOptions, mergeField, emptyPatch, hcc] <;>
    exact ⟨_, _, ⟨rfl, rfl⟩, rfl, rfl, rfl, rfl, by simp⟩

/-- Without a session, `initializeCore` succeeds immediately, only
(re)building the payment-methods list. -/
theorem initializeCore_sessionless (st : CoreState)
    (setup : Except AdyenCheckoutError SessionSetupResponse)
    (hs : st.session = none) :
    initializeCore st setup =
      ([], Except.ok { st with paymentMethodsResponse := st.options.paymentMethodsResponse }) := by
  rcases hp : st.options.paymentMethodsResponse with _ | l <;>
    simp [initializeCore, hs, hp]

/-- With a session and a successful setup, `initializeCore` folds the
response into the state. -/
theorem initializeCore_session_ok (st : CoreState) (sc : SessionConfig)
    (resp : SessionSetupResponse) (hss : st.session = some sc) :
    initializeCore st (Except.ok resp) =
      ([CoreEvent.sessionSetupStarted], Except.ok (foldSessionResponse st resp)) := by
  simp [initializeCore, hss]

/-- The folded countryCode is `options.countryCode || countryCode`. -/
theorem foldSessionResponse_countryCode (st : CoreState) (resp : SessionSetupResponse) :
    (foldSessionResponse st resp).options.countryCode =
      jsOrStr st.options.countryCode resp.countryCode := by
  simp [foldSessionResponse, setOptions, mergeField, emptyPatch]

/-- Module creation always leaves some modules behind and does not
touch the options. -/
theorem createCoreModules_post (st : CoreState) :
    ((createCoreModules st).2).options = st.options ∧
    ((createCoreModules st).2).modules.isSome = true ∧
    ((createCoreModules st).2).devMode = st.devMode ∧
    (∀ e, CoreEvent.onErrorCalled e ∉ (createCoreModules st).1) := by
  rcases hm : st.modules with _ | m <;> by_cases hd : st.devMode <;>
    simp [createCoreModules, hm, hd]

/-- C3: a configuration with no `countryCode` and no session makes
`initialize` fail with an `IMPLEMENTATION_ERROR`; if instead a session
is configured and its setup response includes a countryCode (the caller
having set none), that countryCode is folded into the configuration and
`initialize` succeeds. -/
theorem c3_initialize_countryCode (st : CoreState)
    (setup : Except AdyenCheckoutError SessionSetupResponse)
    (resp : SessionSetupResponse)
    (hcc : truthyStr st.options.countryCode = false) :
    (st.session = none →
      (initializeCheckout st setup).2 = Except.error countryCodeError ∧
      countryCodeError.type = IMPLEMENTATION_ERROR) ∧
    (st.session.isSome = true → truthyStr resp.countryCode = true →
      ∃ st', (initializeCheckout st (Except.ok resp)).2 = Except.ok st' ∧
        st'.options.countryCode = resp.countryCode) := by
  constructor
  · intro hs
    refine ⟨?_, rfl⟩
    unfold initializeCheckout
    simp only [initializeCore_sessionless st setup hs]
    have h2 := validateCoreConfiguration_noCountryCode
      { st with paymentMethodsResponse := st.options.paymentMethodsResponse } hcc
    rcases hv : validateCoreConfiguration
      { st with paymentMethodsResponse := st.options.paymentMethodsResponse } with ⟨ev2, r2⟩
    rw [hv] at h2
    simp at h2
    subst h2
    simp
  · intro hs hrc
    rcases hss : st.session with _ | sc
    · rw [hss] at hs; cases hs
    · have hcore := initializeCore_session_ok st sc resp hss
      have hccA : truthyStr (foldSessionResponse st resp).options.countryCode = true := by
        rw [foldSessionResponse_countryCode]
        simp [jsOrStr, hcc, hrc]
      obtain ⟨ev2, stB, hval, hccB, _, _, _, _⟩ :=
        validateCoreConfiguration_ok (foldSessionResponse st resp) hccA
      obtain ⟨hoptC, _, _, _⟩ := createCoreModules_post stB
      refine ⟨(createCoreModules stB).2, ?_, ?_⟩
      · unfold initializeCheckout
        simp only [hcore, hval]
      · rw [hoptC, hccB, foldSessionResponse_countryCode]
        simp [jsOrStr, hcc]

/-- A concrete successful setup response that includes a countryCode. -/
def c3Response : SessionSetupResponse :=
  ⟨some ⟨2500, "EUR"⟩, some "nl-NL", some "NL", ["ideal"]⟩

/-- C3 witness: the theorem applied to a concrete countryCode-less
configuration without a session (failure) and to one with a session
whose setup response carries a countryCode (success, folded). -/
theorem c3_witness :
    ((initializeCheckout (mkState emptyOptions none) (Except.ok c3Response)).2 =
        Except.error countryCodeError ∧
      countryCodeError.type = IMPLEMENTATION_ERROR) ∧
    (∃ st', (initializeCheckout
          (mkState { emptyOptions with session := some testSession } (some testSession))
          (Except.ok c3Response)).2 = Except.ok st' ∧
      st'.options.countryCode = c3Response.countryCode) :=
  ⟨(c3_initialize_countryCode (mkState emptyOptions none) (Except.ok c3Response) c3Response
      (by decide)).1 rfl,
    (c3_initialize_countryCode
      (mkState { emptyOptions with session := some testSession } (some testSession))
      (Except.ok c3Response) c3Response (by decide)).2 rfl (by decide)⟩

/-- A successful `initializeCore` never touches the modules, the
dev-mode flag or the session, and never calls `onError`. -/
theorem initializeCore_ok_preserves (st : CoreState)
    (setup : Except AdyenCheckoutError SessionSetupResponse)
    (ev : List CoreEvent) (st' : CoreState)
    (h : initializeCore st setup = (ev, Except.ok st')) :
    st'.modules = st.modules ∧ st'.devMode = st.devMode ∧
    (∀ e, CoreEvent.onErrorCalled e ∉ ev) := by
  rcases hs : st.session with _ | sc
  · rw [initializeCore_sessionless st setup hs] at h
    injection h with hev hok
    injection hok with hok
    subst hev
    subst hok
    exact ⟨rfl, rfl, by simp⟩
  · cases setup with
    | error e => simp [initializeCore, hs] at h
    | ok resp =>
      rw [initializeCore_session_ok st sc resp hs] at h
      injection h with hev hok
      injection hok with hok
      subst hev
      subst hok
      refine ⟨by simp [foldSessionResponse], by simp [foldSessionResponse], by simp⟩

/-- With a truthy `countryCode`, validation succeeds; inversion of a
successful validation recovers preservation of the modules and the
dev-mode flag and the absence of `onError` calls. -/
theorem validateCoreConfiguration_ok_inversion (st : CoreState)
    (ev : List CoreEvent) (st' : CoreState)
    (h : validateCoreConfiguration st = (ev, Except.ok st')) :
    st'.modules = st.modules ∧ st'.devMode = st.devMode ∧
    (∀ e, CoreEvent.onErrorCalled e ∉ ev) := by
  cases hcc : truthyStr st.options.countryCode with
  | false =>
    have h2 := validateCoreConfiguration_noCountryCode st hcc
    rw [h] at h2
    simp at h2
  | true =>
    obtain ⟨evX, stX, hvX, _, hmods, hdev, _, hmem⟩ := validateCoreConfiguration_ok st hcc
    rw [hvX] at h
    injection h with hev hok
    injection hok with hok
    subst hev
    subst hok
    exact ⟨hmods, hdev, hmem⟩

/-- Inversion of a successful `initialize`: it decomposes into a
successful `initializeCore`, a successful validation and the module
step, with the traces concatenated. -/
theorem initializeCheckout_ok_inversion (st : CoreState)
    (setup : Except AdyenCheckoutError SessionSetupResponse)
    (ev : List CoreEvent) (st' : CoreState)
    (h : initializeCheckout st setup = (ev, Except.ok st')) :
    ∃ evA stA evB stB,
      initializeCore st setup = (evA, Except.ok stA) ∧
      validateCoreConfiguration stA = (evB, Except.ok stB) ∧
      st' = (createCoreModules stB).2 ∧
      ev = evA ++ evB ++ (createCoreModules stB).1 := by
  rcases hA : initializeCore st setup with ⟨evA, rA⟩
  cases rA with
  | error e =>
    have hrun : initializeCheckout st setup = (evA, Except.error e) := by
      unfold initializeCheckout
      simp only [hA]
    rw [hrun] at h
    injection h with _ hbad
    exact absurd hbad (by simp)
  | ok stA =>
    rcases hB : validateCoreConfiguration stA with ⟨evB, rB⟩
    cases rB with
    | error e =>
      have hrun : initializeCheckout st setup = (evA ++ evB, Except.error e) := by
        unfold initializeCheckout
        simp only [hA, hB]
      rw [hrun] at h
      injection h with _ hbad
      exact absurd hbad (by simp)
    | ok stB =>
      have hrun : initializeCheckout st setup =
          (evA ++ evB ++ (createCoreModules stB).1, Except.ok ((createCoreModules stB).2)) := by
        unfold initializeCheckout
        simp only [hA, hB]
      rw [hrun] at h
      injection h with hev hok
      injection hok with hok
      exact ⟨evA, stA, evB, stB, rfl, hB, hok.symm, hev.symm⟩

/-- C7: a second `initialize` on the same instance leaves the module
record identity-equal (it is not recreated — its creation identity is
unchanged), emits the are-already-created warning (in a development
build) instead of any error, and never calls `onError`. -/
theorem c7_initialize_modules_idempotent (st : CoreState)
    (setup1 setup2 : Except AdyenCheckoutError SessionSetupResponse)
    (ev1 ev2 : List CoreEvent) (st1 st2 : CoreState)
    (h1 : initializeCheckout st setup1 = (ev1, Except.ok st1))
    (h2 : initializeCheckout st1 setup2 = (ev2, Except.ok st2)) :
    st2.modules = st1.modules ∧ st1.modules.isSome = true ∧
    (st1.devMode = true → CoreEvent.warnedModulesAlreadyCreated ∈ ev2) ∧
    (∀ e, CoreEvent.onErrorCalled e ∉ ev2) := by
  obtain ⟨evA, stA, evB, stB, hA, hB, hst1, hev1⟩ :=
    initializeCheckout_ok_inversion st setup1 ev1 st1 h1
  obtain ⟨evC, stC, evD, stD, hC, hD, hst2, hev2⟩ :=
    initializeCheckout_ok_inversion st1 setup2 ev2 st2 h2
  obtain ⟨_, hBsome, _, _⟩ := createCoreModules_post stB
  have h1some : st1.modules.isSome = true := by rw [hst1]; exact hBsome
  obtain ⟨hCmods, hCdev, hCnoerr⟩ := initializeCore_ok_preserves st1 setup2 evC stC hC
  obtain ⟨hDmods, hDdev, hDnoerr⟩ := validateCoreConfiguration_ok_inversion stC evD stD hD
  have hDsome : stD.modules.isSome = true := by rw [hDmods, hCmods]; exact h1some
  obtain ⟨m, hm⟩ := Option.isSome_iff_exists.mp hDsome
  have hcreate : createCoreModules stD =
      ((if stD.devMode then [CoreEvent.warnedModulesAlreadyCreated] else []), stD) := by
    simp [createCoreModules, hm]
  refine ⟨?_, h1some, ?_, ?_⟩
  · rw [hst2, hcreate, hDmods, hCmods]
  · intro hdev
    have hd : stD.devMode = true := by rw [hDdev, hCdev, hdev]
    rw [hev2, hcreate]
    simp [hd]
  · intro e
    rw [hev2, hcreate]
    simp only [List.mem_append]
    rintro ((hc | hd2) | hrest)
    · exact hCnoerr e hc
    · exact hDnoerr e hd2
    · rcases hdm : stD.devMode <;> rw [hdm] at hrest <;> simp at hrest

/-- A concrete starting configuration (countryCode set, no session) for
a double-initialize run. -/
def c7Start : CoreState := mkState { emptyOptions with countryCode := some "NL" } none

/-- A setup-outcome argument that a session-less initialize never
consults. -/
def c7Setup : Except AdyenCheckoutError SessionSetupResponse :=
  Except.error ⟨"NETWORK_ERROR", "unused"⟩

/-- The state after the first successful `initialize` on `c7Start`:
locale defaulted, modules created once with creation identity 0. -/
def c7Ready : CoreState :=
  { mkState { emptyOptions with countryCode := some "NL", locale := some "en-US" } none with
    modules := some ⟨0, none, some "en-US", "https://cdf6519016.cdn.adyen.com/checkoutshopper/"⟩
    freshId := 1 }

/-- C7 witness: a concrete double run of `initialize` whose second call
leaves the identical module record and only warns. -/
theorem c7_witness :
    c7Ready.modules.isSome = true ∧
    CoreEvent.warnedModulesAlreadyCreated ∈ [CoreEvent.warnedModulesAlreadyCreated] :=
  ⟨(c7_initialize_modules_idempotent c7Start c7Setup c7Setup []
      [CoreEvent.warnedModulesAlreadyCreated] c7Ready c7Ready rfl rfl).2.1,
    (c7_initialize_modules_idempotent c7Start c7Setup c7Setup []
      [CoreEvent.warnedModulesAlreadyCreated] c7Ready c7Ready rfl rfl).2.2.1 rfl⟩

/-- The client key of the constructor's merged options is the client
key of the configuration object passed in. -/
theorem constructorOptions_clientKey (props : ConfigPatch) :
    (constructorOptions props).clientKey = readProp props.clientKey := by
  rcases hp : props.clientKey with _ | v <;>
    simp [constructorOptions, constructorPatch, setOptions, emptyOptions, mergeField,
      readProp, hp]

/-- Whether the constructor's merged options carry a truthy
`exposeLibraryMetadata` flag: `true` exactly when the caller did not
set the key, the caller's (possibly falsy) own value otherwise. -/
theorem constructorOptions_metadata (props : ConfigPatch) :
    truthyBool (constructorOptions props).exposeLibraryMetadata =
      (match props.exposeLibraryMetadata with
       | none => true
       | some v => truthyBool v) := by
  rcases hp : props.exposeLibraryMetadata with _ | v <;>
    simp [constructorOptions, constructorPatch, setOptions, emptyOptions, mergeField,
      truthyBool, hp]

/-- C2: for every configuration whose clientKey starts with the
four-character prefix `test` or `live` while the resolved loading
context does not contain that prefix, the constructor throws an
`IMPLEMENTATION_ERROR` synchronously with an empty event trace —
before any asynchronous work: no session setup or network call is
started, and not even the metadata publication happens. -/
theorem c2_constructor_mode_mismatch (props : ConfigPatch) (env : EnvResolution)
    (devMode : Bool) (k : String)
    (hk : readProp props.clientKey = some k)
    (ht : k.take 4 = "test" ∨ k.take 4 = "live")
    (hm : strIncludes env.loadingContext (k.take 4) = false) :
    coreConstructor props env devMode =
      ([], Except.error (modeMismatchError (k.take 4) (constructorOptions props).environment)) ∧
    (modeMismatchError (k.take 4) (constructorOptions props).environment).type =
      IMPLEMENTATION_ERROR := by
  have hck : (constructorOptions props).clientKey = some k := by
    rw [constructorOptions_clientKey, hk]
  refine ⟨?_, rfl⟩
  unfold coreConstructor
  rw [hck]
  simp only [Option.map_some']
  rw [if_pos ⟨ht, by simp [hm]⟩]

/-- A concrete configuration pairing a `test` client key with the
`live` environment. -/
def c2Props : ConfigPatch :=
  { emptyPatch with
    environment := some (some "live")
    clientKey := some (some "test_F7K2M9XQ4RHWBDELCT53ANVJY8") }

/-- The environment contexts the live environment resolves to. -/
def c2Env : EnvResolution :=
  ⟨"https://checkoutshopper-live.adyen.com/checkoutshopper/",
    "https://cdf6519016.cdn.adyen.com/checkoutshopper/",
    "https://checkoutanalytics-live.adyen.com/checkoutanalytics/"⟩

/-- C2 witness: the theorem applied to a concrete test-key/live-context
mismatch. -/
theorem c2_witness :
    coreConstructor c2Props c2Env true =
      ([], Except.error (modeMismatchError "test" (constructorOptions c2Props).environment)) ∧
    (modeMismatchError "test" (constructorOptions c2Props).environment).type =
      IMPLEMENTATION_ERROR :=
  c2_constructor_mode_mismatch c2Props c2Env true "test_F7K2M9XQ4RHWBDELCT53ANVJY8" rfl
    (Or.inl (by decide)) (by decide)

/-- C10: on every successful construction, the static metadata record
is published onto the `window['AdyenWebMetadata']` binding exactly when
the caller did not set `exposeLibraryMetadata` (the constructor
defaults it to `true`) or set it to a truthy value; it is omitted only
when the caller explicitly passed a falsy value. -/
theorem c10_metadata_published_by_default (props : ConfigPatch) (env : EnvResolution)
    (devMode : Bool) (ev : List CoreEvent) (st : CoreState)
    (hok : coreConstructor props env devMode = (ev, Except.ok st)) :
    (CoreEvent.metadataPublished ∈ ev ↔
      (match props.exposeLibraryMetadata with
       | none => true
       | some v => truthyBool v) = true) := by
  rw [← constructorOptions_metadata props]
  unfold coreConstructor at hok
  rcases hck : (constructorOptions props).clientKey with _ | ck <;> rw [hck] at hok <;>
    simp only [Option.map_none', Option.map_some'] at hok
  · split at hok
    · next hE =>
      injection hok with hev _
      rw [← hev]
      simp [hE]
    · next hE =>
      injection hok with hev _
      rw [← hev]
      simp [hE]
  · split at hok
    · next hmis => simp at hok
    · next hmis =>
      split at hok
      · next hE =>
        injection hok with hev _
        rw [← hev]
        simp [hE]
      · next hE =>
        injection hok with hev _
        rw [← hev]
        simp [hE]

/-- C10 witness: a configuration that does not mention
`exposeLibraryMetadata` publishes the metadata record. -/
theorem c10_witness :
    CoreEvent.metadataPublished ∈ [CoreEvent.metadataPublished] ↔
      (match emptyPatch.exposeLibraryMetadata with
       | none => true
       | some v => truthyBool v) = true :=
  c10_metadata_published_by_default emptyPatch c2Env true [CoreEvent.metadataPublished]
    (constructorState emptyPatch c2Env true) rfl

/-- The character list of a string concatenation. -/
theorem toList_append (s t : String) : (s ++ t).toList = s.toList ++ t.toList := rfl

/-- C6: `createFromAction` distinguishes caller mistakes.  For an
action object without a (truthy) `type` it throws the specific
whole-response diagnostic exactly when the object has both an own
`action` and an own `resultCode` property, and the generic
missing-`type` error otherwise; the two messages differ.  Dispatching
an action whose computed component key has no registry entry (or whose
key is undefined) yields a thrown error whose message names the
offending payment-method key and embeds the raw value passed — always
an error, never a null element. -/
theorem c6_createFromAction_diagnostics :
    (∀ (reg : Registry) (a : PaymentAction), truthyStr a.type = false →
      a.hasActionProp = true → a.hasResultCodeProp = true →
      createFromAction reg (some a) = ([], Except.error wholeResponseError)) ∧
    (∀ (reg : Registry) (a : PaymentAction), truthyStr a.type = false →
      (a.hasActionProp = false ∨ a.hasResultCodeProp = false) →
      createFromAction reg (some a) = ([], Except.error missingTypeError)) ∧
    wholeResponseError ≠ missingTypeError ∧
    (∀ (reg : Registry) (a : PaymentAction) (key : String),
      truthyStr a.type = true → componentKeyFor a = some key →
      reg.getComponent key = none →
      ∃ err, (createFromAction reg (some a)).2 = Except.error err ∧
        strIncludes err.message key = true ∧
        strIncludes err.message (stringifyAction a) = true) ∧
    (∀ (reg : Registry) (a : PaymentAction),
      truthyStr a.type = true → componentKeyFor a = none →
      ∃ err, (createFromAction reg (some a)).2 = Except.error err ∧
        strIncludes err.message (stringifyAction a) = true) := by
  refine ⟨?_, ?_, by decide, ?_, ?_⟩
  · intro reg a h hA hR
    simp [createFromAction, h, hA, hR]
  · intro reg a h hor
    rcases hor with hA | hR
    · simp [createFromAction, h, hA]
    · simp [createFromAction, h, hR]
  · intro reg a key h hkey hreg
    refine ⟨handleCreateError (some ⟨some key, stringifyAction a⟩), ?_, ?_, ?_⟩
    · simp [createFromAction, h, getComponentForAction, hkey, hreg]
    · apply strIncludes_of_decomp _ _ []
        (((" is not a valid Checkout Component. What was passed as a txVariant was: " ++
          stringifyAction a) ++
          ". Check if this payment method is configured in the Backoffice or if the txVariant is a valid one").toList)
      simp [handleCreateError, toList_append, List.append_assoc]
    · apply strIncludes_of_decomp _ _
        ((key ++ " is not a valid Checkout Component. What was passed as a txVariant was: ").toList)
        (". Check if this payment method is configured in the Backoffice or if the txVariant is a valid one".toList)
      simp [handleCreateError, toList_append, List.append_assoc]
  · intro reg a h hkey
    refine ⟨handleCreateError (some ⟨none, stringifyAction a⟩), ?_, ?_⟩
    · simp [createFromAction, h, getComponentForAction, hkey]
    · apply strIncludes_of_decomp _ _
        (("The passed payment method" ++
          " is not a valid Checkout Component. What was passed as a txVariant was: ").toList)
        (". Check if this payment method is configured in the Backoffice or if the txVariant is a valid one".toList)
      simp [handleCreateError, toList_append, List.append_assoc]

/-- A registry with no entries. -/
def c6EmptyRegistry : Registry := ⟨[]⟩

/-- C6 witness: the theorem applied to `\x7b action: ..., resultCode: ... \x7d`
(whole-response diagnostic), to `\x7b\x7d` (generic missing-type error), and
to `\x7b type: 'unknownType' \x7d` against an empty registry (thrown error
embedding the raw action). -/
theorem c6_witness :
    createFromAction c6EmptyRegistry (some ⟨none, none, none, true, true⟩) =
      ([], Except.error wholeResponseError) ∧
    createFromAction c6EmptyRegistry (some ⟨none, none, none, false, false⟩) =
      ([], Except.error missingTypeError) ∧
    (∃ err,
      (createFromAction c6EmptyRegistry
          (some ⟨some "unknownType", none, none, false, false⟩)).2 = Except.error err ∧
      strIncludes err.message
        (stringifyAction ⟨some "unknownType", none, none, false, false⟩) = true) :=
  ⟨c6_createFromAction_diagnostics.1 c6EmptyRegistry ⟨none, none, none, true, true⟩ rfl rfl rfl,
    c6_createFromAction_diagnostics.2.1 c6EmptyRegistry ⟨none, none, none, false, false⟩ rfl
      (Or.inl rfl),
    c6_createFromAction_diagnostics.2.2.2.2 c6EmptyRegistry
      ⟨some "unknownType", none, none, false, false⟩ (by decide) (by decide)⟩

end AdyenWeb
